import Mathlib

/-!
# Verification of the Holoportation capture / streaming pipeline

A shallow embedding, over exact rational (and, for the logarithmic scale
formula, real) arithmetic, of the components of the LiveScan3D-based
holoportation system that the specification's claims concern:

* `VoxelGridFilter` (voxelGridFilter.cpp) — the per-frame voxel de-dup set;
* `ProcessFrame` (liveScanClient.cpp) — calibration application, bounds
  clipping, voxel de-dup, density filter and short conversion;
* `Calibration` (calibration.cpp) — marker-based calibration finalisation,
  persistence;
* `MarkerDetector.GetCode` (markerDetector.cpp) — the cell-grid decode step;
* `PointCloudTransferSocket` (PointCloudTransferSocket.cs) and the receiver
  decoder (ObjectControllerIO.cs) — the wire quantisation;
* the coordinator's hardware-sync role assignment and master-start protocol
  (Utils.cs).

Machine floats are modelled by exact rationals; `Math.Log` by `Real.log`.
Casts such as C++ `static_cast<int>` on floats and C# `(byte)`/`(short)`
casts (truncation toward zero) are modelled by `qtrunc`.
-/

namespace Holoport

/-- Truncation toward zero of a rational number, the semantics of C++
`static_cast<int>(float)` and C# float-to-integer casts. -/
def qtrunc (q : ℚ) : ℤ := if 0 ≤ q then ⌊q⌋ else ⌈q⌉

/-! ## Voxel grid filter (voxelGridFilter.cpp) -/

/-- State of `VoxelGridFilter`: the grid geometry fields and the set of
occupied flattened cell indices (the `true` positions of the
`std::vector<bool> voxelGrid`). -/
structure VoxelGridFilter where
  gridSizeX : ℕ
  gridSizeY : ℕ
  gridSizeZ : ℕ
  invVoxelSize : ℚ
  minX : ℚ
  minY : ℚ
  minZ : ℚ
  voxelGrid : Finset ℕ
deriving DecidableEq

/-- `VoxelGridFilter::VoxelGridFilter(voxelSize, centerX, centerY, centerZ,
halfRange)`: stores `1/voxelSize`, bounds `centerK - halfRange` and grid
sizes `ceil(2*halfRange/voxelSize)`; all cells start empty. -/
def VoxelGridFilter.init (voxelSize centerX centerY centerZ halfRange : ℚ) :
    VoxelGridFilter :=
  { invVoxelSize := 1 / voxelSize
    minX := centerX - halfRange
    minY := centerY - halfRange
    minZ := centerZ - halfRange
    gridSizeX := (⌈(halfRange * 2) * (1 / voxelSize)⌉).toNat
    gridSizeY := (⌈(halfRange * 2) * (1 / voxelSize)⌉).toNat
    gridSizeZ := (⌈(halfRange * 2) * (1 / voxelSize)⌉).toNat
    voxelGrid := ∅ }

/-- `VoxelGridFilter::Reset()`: clear all occupancy bits. -/
def VoxelGridFilter.Reset (g : VoxelGridFilter) : VoxelGridFilter :=
  { g with voxelGrid := ∅ }

/-- `VoxelGridFilter::VoxelIndex(x,y,z)`: flattened index
`z*gy*gx + y*gx + x` (callers only pass in-range non-negative indices). -/
def VoxelGridFilter.VoxelIndex (g : VoxelGridFilter) (x y z : ℤ) : ℕ :=
  z.toNat * g.gridSizeY * g.gridSizeX + y.toNat * g.gridSizeX + x.toNat

/-- `VoxelGridFilter::Insert(x,y,z)`: computes per-axis indices with an
`int` cast (truncation toward zero), rejects indices outside
`[0, gridSize)`, then tests-and-sets the occupancy bit. Returns the `bool`
result of the C++ function together with the updated state. -/
def VoxelGridFilter.Insert (g : VoxelGridFilter) (x y z : ℚ) :
    Bool × VoxelGridFilter :=
  let ix := qtrunc ((x - g.minX) * g.invVoxelSize)
  let iy := qtrunc ((y - g.minY) * g.invVoxelSize)
  let iz := qtrunc ((z - g.minZ) * g.invVoxelSize)
  if ix < 0 ∨ iy < 0 ∨ iz < 0 ∨ (g.gridSizeX : ℤ) ≤ ix ∨
      (g.gridSizeY : ℤ) ≤ iy ∨ (g.gridSizeZ : ℤ) ≤ iz then
    (false, g)
  else
    let idx := g.VoxelIndex ix iy iz
    if idx ∈ g.voxelGrid then (false, g)
    else (true, { g with voxelGrid := insert idx g.voxelGrid })

/-- The cell of the spec's index formula `ik = floor((k - mink)/voxelSize)`
(with `voxelSize = 1/invVoxelSize`), as a triple of integer indices. -/
def specCell (g : VoxelGridFilter) (x y z : ℚ) : ℤ × ℤ × ℤ :=
  (⌊(x - g.minX) * g.invVoxelSize⌋, ⌊(y - g.minY) * g.invVoxelSize⌋,
    ⌊(z - g.minZ) * g.invVoxelSize⌋)

/-- Whether the spec-formula cell containing `(x,y,z)` lies within the grid
bounds `[0, gridSize)` on every axis. -/
def specCellInGrid (g : VoxelGridFilter) (x y z : ℚ) : Prop :=
  0 ≤ (specCell g x y z).1 ∧ (specCell g x y z).1 < (g.gridSizeX : ℤ) ∧
  0 ≤ (specCell g x y z).2.1 ∧ (specCell g x y z).2.1 < (g.gridSizeY : ℤ) ∧
  0 ≤ (specCell g x y z).2.2 ∧ (specCell g x y z).2.2 < (g.gridSizeZ : ℤ)

instance (g : VoxelGridFilter) (x y z : ℚ) : Decidable (specCellInGrid g x y z) := by
  unfold specCellInGrid; infer_instance

/-- The cell the code actually uses: per-axis truncation toward zero of
`(k - mink) * invVoxelSize`. -/
def truncCell (g : VoxelGridFilter) (x y z : ℚ) : ℤ × ℤ × ℤ :=
  (qtrunc ((x - g.minX) * g.invVoxelSize), qtrunc ((y - g.minY) * g.invVoxelSize),
    qtrunc ((z - g.minZ) * g.invVoxelSize))

/-- Whether the truncation-computed cell lies within the grid bounds. -/
def truncCellInGrid (g : VoxelGridFilter) (x y z : ℚ) : Prop :=
  0 ≤ (truncCell g x y z).1 ∧ (truncCell g x y z).1 < (g.gridSizeX : ℤ) ∧
  0 ≤ (truncCell g x y z).2.1 ∧ (truncCell g x y z).2.1 < (g.gridSizeY : ℤ) ∧
  0 ≤ (truncCell g x y z).2.2 ∧ (truncCell g x y z).2.2 < (g.gridSizeZ : ℤ)

instance (g : VoxelGridFilter) (x y z : ℚ) : Decidable (truncCellInGrid g x y z) := by
  unfold truncCellInGrid; infer_instance

/-- Whether the truncation-computed cell of `(x,y,z)` is already occupied. -/
def cellOccupied (g : VoxelGridFilter) (x y z : ℚ) : Prop :=
  g.VoxelIndex (truncCell g x y z).1 (truncCell g x y z).2.1 (truncCell g x y z).2.2
    ∈ g.voxelGrid

instance (g : VoxelGridFilter) (x y z : ℚ) : Decidable (cellOccupied g x y z) := by
  unfold cellOccupied; infer_instance

/-- The flattened index of the truncation-computed cell of `(x,y,z)`
under the geometry of `g`. -/
def cellIdx (g : VoxelGridFilter) (x y z : ℚ) : ℕ :=
  g.VoxelIndex (truncCell g x y z).1 (truncCell g x y z).2.1 (truncCell g x y z).2.2

/-! ## Point and matrix types (utils.h, utils.cpp) -/

/-- `Point3f`: metres, with the `Invalid` marker flag (default `false`). -/
structure Point3f where
  X : ℚ
  Y : ℚ
  Z : ℚ
  Invalid : Bool := false
deriving DecidableEq

instance : Inhabited Point3f := ⟨{ X := 0, Y := 0, Z := 0 }⟩

/-- `Point3s`: millimetres; produced from `Point3f` by
`static_cast<short>(1000 * v)` per axis. -/
structure Point3s where
  X : ℤ
  Y : ℤ
  Z : ℤ
deriving DecidableEq, Repr

/-- The `Point3s(Point3f&)` conversion constructor: metres to millimetres by
truncation toward zero (in-range clouds never overflow the `short`). -/
def toPoint3s (p : Point3f) : Point3s :=
  ⟨qtrunc (1000 * p.X), qtrunc (1000 * p.Y), qtrunc (1000 * p.Z)⟩

/-- `RGB`: the 8-bit colour triple (field values 0..255). -/
structure RGB where
  Red : ℕ
  Green : ℕ
  Blue : ℕ
deriving DecidableEq

/-- `Point2f`: image coordinates. -/
structure Point2f where
  X : ℚ
  Y : ℚ
deriving DecidableEq

/-- A 3-vector, standing for the `vector<float>` of length 3 used for
translations in calibration.cpp (entries `[0], [1], [2]`). -/
structure Vec3 where
  c0 : ℚ
  c1 : ℚ
  c2 : ℚ
deriving DecidableEq

/-- A 3×3 matrix, standing for the `vector<vector<float>>` rotation
matrices (entry `mIJ` is `R[I][J]`). -/
structure Mat3 where
  m00 : ℚ
  m01 : ℚ
  m02 : ℚ
  m10 : ℚ
  m11 : ℚ
  m12 : ℚ
  m20 : ℚ
  m21 : ℚ
  m22 : ℚ
deriving DecidableEq

/-- The 3×3 identity, the initial `worldR`. -/
def Mat3.id : Mat3 := ⟨1, 0, 0, 0, 1, 0, 0, 0, 1⟩

/-- `RotatePoint(Point3f&, R)` from utils.cpp: `res = R * point`; the result
is a freshly constructed `Point3f`, so its `Invalid` flag is `false`. -/
def RotatePoint (p : Point3f) (R : Mat3) : Point3f :=
  { X := p.X * R.m00 + p.Y * R.m01 + p.Z * R.m02
    Y := p.X * R.m10 + p.Y * R.m11 + p.Z * R.m12
    Z := p.X * R.m20 + p.Y * R.m21 + p.Z * R.m22 }

/-- `InverseRotatePoint(vector<float>&, R)` from calibration.cpp:
`res[j] = sum_i point[i] * R[i][j]`. -/
def InverseRotatePoint (v : Vec3) (R : Mat3) : Vec3 :=
  { c0 := v.c0 * R.m00 + v.c1 * R.m10 + v.c2 * R.m20
    c1 := v.c0 * R.m01 + v.c1 * R.m11 + v.c2 * R.m21
    c2 := v.c0 * R.m02 + v.c1 * R.m12 + v.c2 * R.m22 }

/-- Componentwise vector sum. -/
def Vec3.add (a b : Vec3) : Vec3 := ⟨a.c0 + b.c0, a.c1 + b.c1, a.c2 + b.c2⟩

/-- Matrix transpose (claim-side helper). -/
def Mat3.transpose (R : Mat3) : Mat3 :=
  ⟨R.m00, R.m10, R.m20, R.m01, R.m11, R.m21, R.m02, R.m12, R.m22⟩

/-- Standard matrix-vector product `R · v` (claim-side helper). -/
def Mat3.mulVec (R : Mat3) (v : Vec3) : Vec3 :=
  { c0 := R.m00 * v.c0 + R.m01 * v.c1 + R.m02 * v.c2
    c1 := R.m10 * v.c0 + R.m11 * v.c1 + R.m12 * v.c2
    c2 := R.m20 * v.c0 + R.m21 * v.c1 + R.m22 * v.c2 }

/-- The matrix product computed by the entrywise loops in
`Calibration::Calibrate`: `(A*B)[i][j] = sum_k A[i][k] * B[k][j]`. -/
def Mat3.mul (A B : Mat3) : Mat3 :=
  { m00 := A.m00 * B.m00 + A.m01 * B.m10 + A.m02 * B.m20
    m01 := A.m00 * B.m01 + A.m01 * B.m11 + A.m02 * B.m21
    m02 := A.m00 * B.m02 + A.m01 * B.m12 + A.m02 * B.m22
    m10 := A.m10 * B.m00 + A.m11 * B.m10 + A.m12 * B.m20
    m11 := A.m10 * B.m01 + A.m11 * B.m11 + A.m12 * B.m21
    m12 := A.m10 * B.m02 + A.m11 * B.m12 + A.m12 * B.m22
    m20 := A.m20 * B.m00 + A.m21 * B.m10 + A.m22 * B.m20
    m21 := A.m20 * B.m01 + A.m21 * B.m11 + A.m22 * B.m21
    m22 := A.m20 * B.m02 + A.m21 * B.m12 + A.m22 * B.m22 }

/-- View a `Point3f` position as a `Vec3` (claim-side helper). -/
def Point3f.vec (p : Point3f) : Vec3 := ⟨p.X, p.Y, p.Z⟩

/-! ## Calibration engine (calibration.cpp) -/

/-- `MarkerPose`: a configured marker id with its world pose. -/
structure MarkerPose where
  MarkerId : ℤ
  R : Mat3
  T : Vec3
deriving DecidableEq

/-- `MarkerInfo`: a detected marker's id, image corners and marker-local
3-D points. -/
structure MarkerInfo where
  Id : ℤ
  Corners : List Point2f
  Points : List Point3f
deriving DecidableEq

/-- The mutable state of a `Calibration` object. -/
structure CalibrationState where
  worldT : Vec3
  worldR : Mat3
  isCalibrated : Bool
  usedMarkerId : ℤ
  markerSamplePositions : List (List Point3f)
  numSamples : ℕ
deriving DecidableEq

/-- `Calibration::Calibration()`: zero translation, identity rotation, not
calibrated, `usedMarkerId = -1`, no samples. -/
def CalibrationState.init : CalibrationState :=
  { worldT := ⟨0, 0, 0⟩
    worldR := Mat3.id
    isCalibrated := false
    usedMarkerId := -1
    markerSamplePositions := []
    numSamples := 0 }

/-- `NumRequiredSamples`. -/
def NumRequiredSamples : ℕ := 20

/-- `Calibration::Get3DMarkerCorners`: for each detected corner, bilinearly
interpolate the camera-space point from the four neighbouring depth-space
points (`static_cast<int>` truncation for the top-left pixel); abort with
`none` if any neighbour has `Z <= 0`. The depth frame is modelled as a
function from the flattened pixel index `x + y*frameWidth`. -/
def Get3DMarkerCorners (marker : MarkerInfo) (depthFrame : ℤ → Point3f)
    (frameWidth : ℤ) : Option (List Point3f) :=
  marker.Corners.mapM fun c =>
    let minX := qtrunc c.X
    let maxX := minX + 1
    let minY := qtrunc c.Y
    let maxY := minY + 1
    let dx : ℚ := c.X - minX
    let dy : ℚ := c.Y - minY
    let pointMin := depthFrame (minX + minY * frameWidth)
    let pointXMaxYMin := depthFrame (maxX + minY * frameWidth)
    let pointXMinYMax := depthFrame (minX + maxY * frameWidth)
    let pointMax := depthFrame (maxX + maxY * frameWidth)
    if pointMin.Z ≤ 0 ∨ pointXMaxYMin.Z ≤ 0 ∨ pointXMinYMax.Z ≤ 0 ∨
        pointMax.Z ≤ 0 then
      none
    else
      some { X := (1 - dx) * (1 - dy) * pointMin.X + dx * (1 - dy) * pointXMaxYMin.X
                  + (1 - dx) * dy * pointXMinYMax.X + dx * dy * pointMax.X
             Y := (1 - dx) * (1 - dy) * pointMin.Y + dx * (1 - dy) * pointXMaxYMin.Y
                  + (1 - dx) * dy * pointXMinYMax.Y + dx * dy * pointMax.Y
             Z := (1 - dx) * (1 - dy) * pointMin.Z + dx * (1 - dy) * pointXMaxYMin.Z
                  + (1 - dx) * dy * pointXMinYMax.Z + dx * dy * pointMax.Z }

/-- The componentwise mean over the first `NumRequiredSamples` samples
computed by the averaging loop in `Calibration::Calibrate` (each term is
divided by `NumRequiredSamples` as it is added). -/
def averageSamples (samples : List (List Point3f)) (numCorners : ℕ) :
    List Point3f :=
  (List.range numCorners).map fun i =>
    { X := ((samples.take NumRequiredSamples).map
              (fun s => (s.getD i default).X / (NumRequiredSamples : ℚ))).sum
      Y := ((samples.take NumRequiredSamples).map
              (fun s => (s.getD i default).Y / (NumRequiredSamples : ℚ))).sum
      Z := ((samples.take NumRequiredSamples).map
              (fun s => (s.getD i default).Z / (NumRequiredSamples : ℚ))).sum }

/-- The translation part of `Calibration::Procrustes`:
`T = -centroid(markerInWorld)` (each coordinate summed divided by the
vertex count). -/
def procrustesT (markerInWorld : List Point3f) : Vec3 :=
  let n : ℚ := markerInWorld.length
  { c0 := -(markerInWorld.map (fun p => p.X / n)).sum
    c1 := -(markerInWorld.map (fun p => p.Y / n)).sum
    c2 := -(markerInWorld.map (fun p => p.Z / n)).sum }

/-- `Calibration::Procrustes` as `(Rp, Tp)`: the translation is computed
exactly; the rotation comes from `svdR`, an oracle parameter standing for
the OpenCV SVD of the centred cross-covariance (with reflection fix), a
function of the marker-local points and the averaged camera-space points. -/
def procrustesResult (svdR : List Point3f → List Point3f → Mat3)
    (markerPoints markerInWorld : List Point3f) : Mat3 × Vec3 :=
  (svdR markerPoints markerInWorld, procrustesT markerInWorld)

/-- `Calibration::Calibrate`. The marker-detector call is modelled by the
`detected` argument (the `DetectMarkersInImage` result on the colour
frame); `svdR` models the SVD rotation inside `Procrustes`. Returns the
`bool` result paired with the updated state. Mirrors the source's control
flow: no marker / unknown id / invalid corner depth / not enough samples
return `false` early; `usedMarkerId` is assigned as soon as the detected
id matches a configured pose (before the depth and sample-count checks). -/
def Calibrate (svdR : List Point3f → List Point3f → Mat3)
    (st : CalibrationState) (markerPoses : List MarkerPose)
    (detected : Option MarkerInfo) (depthFrame : ℤ → Point3f)
    (frameWidth : ℤ) : Bool × CalibrationState :=
  match detected with
  | none => (false, st)
  | some marker =>
    match markerPoses.find? (fun p => p.MarkerId == marker.Id) with
    | none => (false, st)
    | some markerPose =>
      let st1 := { st with usedMarkerId := markerPose.MarkerId }
      match Get3DMarkerCorners marker depthFrame frameWidth with
      | none => (false, st1)
      | some marker3D =>
        let st2 := { st1 with
          markerSamplePositions := st1.markerSamplePositions ++ [marker3D]
          numSamples := st1.numSamples + 1 }
        if st2.numSamples < NumRequiredSamples then (false, st2)
        else
          let avg := averageSamples st2.markerSamplePositions marker.Corners.length
          let pr := procrustesResult svdR marker.Points avg
          let worldR1 := Mat3.mul markerPose.R pr.1
          let translationIncr := InverseRotatePoint markerPose.T worldR1
          (true, { st2 with
            worldR := worldR1
            worldT := Vec3.add pr.2 translationIncr
            isCalibrated := true
            markerSamplePositions := []
            numSamples := 0 })

/-! ## Capture pipeline constants and `ProcessFrame` (liveScanClient.cpp) -/

/-- `Range = 0.3f` (documentDetector.h / PointCloudTransferSocket.cs). -/
def Range : ℚ := 3 / 10

/-- `HalfRange = Range / 2`. -/
def HalfRange : ℚ := Range / 2

/-- `MinPrecision = Range / 255`. -/
def MinPrecision : ℚ := Range / 255

/-- `XRangeCenter = 0`. -/
def XRangeCenter : ℚ := 0

/-- `YRangeCenter = 0`. -/
def YRangeCenter : ℚ := 0

/-- `ZRangeCenter = HalfRange`. -/
def ZRangeCenter : ℚ := HalfRange

/-- The voxel de-dup grid the client constructs:
`voxelGridFilter(MinPrecision, XRangeCenter, YRangeCenter, ZRangeCenter, HalfRange)`. -/
def clientVoxelGrid : VoxelGridFilter :=
  VoxelGridFilter.init MinPrecision XRangeCenter YRangeCenter ZRangeCenter HalfRange

/-- The six clip-bound entries `bounds[0..5]` (min x,y,z then max x,y,z). -/
structure Bounds where
  b0 : ℚ
  b1 : ℚ
  b2 : ℚ
  b3 : ℚ
  b4 : ℚ
  b5 : ℚ
deriving DecidableEq

/-- The constructor's default bounds `(-0.5, ..., 0.5)`. -/
def defaultBounds : Bounds := ⟨-1/2, -1/2, -1/2, 1/2, 1/2, 1/2⟩

/-- The placeholder written for removed points: `Point3f(0, 0, 0, true)`. -/
def invalidPoint : Point3f := { X := 0, Y := 0, Z := 0, Invalid := true }

/-- The calibrated branch of `ProcessFrame`'s per-point step: add `worldT`
to the point, then `RotatePoint` by `worldR` (translation before
rotation). -/
def applyCalib (calib : CalibrationState) (p : Point3f) : Point3f :=
  RotatePoint { p with X := p.X + calib.worldT.c0, Y := p.Y + calib.worldT.c1,
                       Z := p.Z + calib.worldT.c2 } calib.worldR

/-- One iteration of `ProcessFrame`'s first loop: when calibrated, apply
the world transform, drop the point (mark invalid) if outside the bounds
or if its voxel is already occupied; when not calibrated, pass the point
through unchanged. Returns the stored point with the voxel-grid state. -/
def processPoint (calib : CalibrationState) (bounds : Bounds)
    (g : VoxelGridFilter) (p : Point3f) : Point3f × VoxelGridFilter :=
  if calib.isCalibrated then
    let temp := applyCalib calib p
    if temp.X < bounds.b0 ∨ temp.X > bounds.b3 ∨ temp.Y < bounds.b1 ∨
        temp.Y > bounds.b4 ∨ temp.Z < bounds.b2 ∨ temp.Z > bounds.b5 then
      (invalidPoint, g)
    else
      let r := g.Insert temp.X temp.Y temp.Z
      if r.1 then (temp, r.2) else (invalidPoint, r.2)
  else (p, g)

/-- `ProcessFrame`'s first loop over all vertices, threading the voxel-grid
state. -/
def calibClipDedup (calib : CalibrationState) (bounds : Bounds) :
    List Point3f → VoxelGridFilter → List Point3f
  | [], _ => []
  | p :: ps, g =>
    let r := processPoint calib bounds g p
    r.1 :: calibClipDedup calib bounds ps r.2

/-- The density filter's voxel side `0.006 m`. -/
def densityVoxelSize : ℚ := 6 / 1000

/-- `minPointsPerVoxel = 12`. -/
def minPointsPerVoxel : ℕ := 12

/-- `HashVoxel`: pack the three cell indices (low 21 bits each, i.e. modulo
`2^21` of the two's-complement value) into one key. -/
def hashVoxel (x y z : ℤ) : ℕ :=
  (x.emod (2 ^ 21)).toNat * 2 ^ 42 + (y.emod (2 ^ 21)).toNat * 2 ^ 21 +
    (z.emod (2 ^ 21)).toNat

/-- The density-filter key of a point: `floor(coord / 0.006)` per axis,
hashed. -/
def densityKey (p : Point3f) : ℕ :=
  hashVoxel ⌊p.X / densityVoxelSize⌋ ⌊p.Y / densityVoxelSize⌋ ⌊p.Z / densityVoxelSize⌋

/-- `ProcessFrame`'s density filter: count valid points per coarse voxel
and mark points in under-populated voxels (fewer than `minPointsPerVoxel`)
invalid. -/
def densityStage (pts : List Point3f) : List Point3f :=
  let keys := pts.filterMap fun p => if p.Invalid then none else some (densityKey p)
  pts.map fun p =>
    if p.Invalid then p
    else if keys.count (densityKey p) < minPointsPerVoxel then invalidPoint
    else p

/-- `ProcessFrame`'s copy loop. The output vectors `goodVertices` /
`goodColorPoints` are allocated with `goodVerticesCount` entries — the
count the *first* loop computed, before the density filter ran — and the
valid points are written in order from index 0, paired with the colour at
the same index. When the density filter has invalidated some of the
counted points, the unwritten tail keeps the default-constructed
`Point3f(0,0,0)` and zero `RGB` entries of the pre-sized vectors. -/
def collectGood (pts : List Point3f) (cols : List RGB)
    (goodVerticesCount : ℕ) : List (Point3f × RGB) :=
  let kept := (pts.zip cols).filter fun pc => !pc.1.Invalid
  kept ++ List.replicate (goodVerticesCount - kept.length)
    ({ X := 0, Y := 0, Z := 0 }, ⟨0, 0, 0⟩)

/-- The `goodVerticesCount` computed by `ProcessFrame`'s first loop: it is
incremented exactly for the vertices not dropped by a `continue`. When the
camera is calibrated those are exactly the valid points of that loop's
output (the applied transform always constructs a point with a cleared
`Invalid` flag); when it is not calibrated the branch with the `continue`
statements is skipped, so every vertex is counted. -/
def stage1GoodCount (calib : CalibrationState) (vertices marked : List Point3f) : ℕ :=
  if calib.isCalibrated then (marked.filter fun p => !p.Invalid).length
  else vertices.length

/-- `LiveScanClient::ProcessFrame` in the default configuration
(`isFilterEnabled = false`, so the optional KNN filter stage is a no-op):
reset the voxel grid, run the calibrate/clip/de-dup loop, the density
filter and the good-vertex copy, and convert the survivors to `Point3s`.
Returns the published `(lastFrameVertices, lastFrameColors)` pair. -/
def ProcessFrame (calib : CalibrationState) (bounds : Bounds)
    (g : VoxelGridFilter) (vertices : List Point3f) (colors : List RGB) :
    List Point3s × List RGB :=
  let marked := calibClipDedup calib bounds vertices g.Reset
  let marked2 := densityStage marked
  let good := collectGood marked2 colors (stage1GoodCount calib vertices marked)
  (good.map fun pc => toPoint3s pc.1, good.map fun pc => pc.2)

/-- The entries of the `goodVertices` float buffer the copy loop actually
wrote: the valid survivors of the density stage, in order, without the
padded tail. -/
def processFrameKeptFloats (calib : CalibrationState) (bounds : Bounds)
    (g : VoxelGridFilter) (vertices : List Point3f) (colors : List RGB) :
    List Point3f :=
  (((densityStage (calibClipDedup calib bounds vertices g.Reset)).zip colors).filter
    fun pc => !pc.1.Invalid).map fun pc => pc.1

/-- The full `goodVertices` float buffer of `ProcessFrame` before the
millimetre conversion, the zero-padded tail included. -/
def processFrameFloats (calib : CalibrationState) (bounds : Bounds)
    (g : VoxelGridFilter) (vertices : List Point3f) (colors : List RGB) :
    List Point3f :=
  (collectGood (densityStage (calibClipDedup calib bounds vertices g.Reset)) colors
    (stage1GoodCount calib vertices (calibClipDedup calib bounds vertices g.Reset))).map
    fun pc => pc.1

/-- The claim's voxel cell of a published point (millimetres on the wire,
metres divided by `minPrecision`): the triple
`(⌊x/minPrecision⌋, ⌊y/minPrecision⌋, ⌊z/minPrecision⌋)`. -/
def claimVoxelOfPoint3s (p : Point3s) : ℤ × ℤ × ℤ :=
  (⌊((p.X : ℚ) / 1000) / MinPrecision⌋, ⌊((p.Y : ℚ) / 1000) / MinPrecision⌋,
    ⌊((p.Z : ℚ) / 1000) / MinPrecision⌋)

/-- The claim's property for one frame's output cloud: no two points fall
into the same `minPrecision` voxel cell. -/
def noTwoShareClaimVoxel (out : List Point3s) : Prop :=
  out.Pairwise fun p q => claimVoxelOfPoint3s p ≠ claimVoxelOfPoint3s q

instance (out : List Point3s) : Decidable (noTwoShareClaimVoxel out) := by
  unfold noTwoShareClaimVoxel; infer_instance

/-- Claim-side reference pipeline for an uncalibrated camera: the frame
goes straight to the density-filter stage (no world transform, no bounds
clipping, no voxel de-dup), then through the good-vertex copy and the
millimetre conversion. -/
def uncalibratedReference (vertices : List Point3f) (colors : List RGB) :
    List Point3s × List RGB :=
  let good := collectGood (densityStage vertices) colors vertices.length
  (good.map fun pc => toPoint3s pc.1, good.map fun pc => pc.2)

/-! ## Calibration persistence (calibration.cpp SaveCalibration / LoadCalibration)

The file content is modelled as the string the C++ stream operations
produce and consume. `formatFloat` models the default `ostream` float
formatting; it is exact on integer-valued floats (the only values the
theorems exercise: default `ostream` prints `1.0f` as `1`, `-1.0f` as
`-1`, `0.0f` as `0`). -/

/-- The decode tail of `MarkerDetector::GetCode` on the binarised 3×3 cell
grid: for `i = 0..3`, reject with `-1` when `vals[i] == vals[i+4]`,
otherwise accumulate `2^(3-i)` for each set data bit and count the ones;
finally reject with `-1` when `(even && vals[8]==0) || (!even && vals[8]==1)`,
else return the code. -/
def GetCode (vals : Fin 9 → Bool) : ℤ :=
  if vals 0 = vals 4 then -1
  else if vals 1 = vals 5 then -1
  else if vals 2 = vals 6 then -1
  else if vals 3 = vals 7 then -1
  else
    let code : ℤ := (if vals 0 then 8 else 0) + (if vals 1 then 4 else 0) +
      (if vals 2 then 2 else 0) + (if vals 3 then 1 else 0)
    let ones : ℕ := (if vals 0 then 1 else 0) + (if vals 1 then 1 else 0) +
      (if vals 2 then 1 else 0) + (if vals 3 then 1 else 0)
    let even := ones % 2 = 0
    if (even ∧ vals 8 = false) ∨ (¬even ∧ vals 8 = true) then -1
    else code

/-- Claim-side: cells 4–7 are the bitwise complement of data cells 0–3. -/
def complementOk (vals : Fin 9 → Bool) : Prop :=
  vals 4 = !vals 0 ∧ vals 5 = !vals 1 ∧ vals 6 = !vals 2 ∧ vals 7 = !vals 3

instance (vals : Fin 9 → Bool) : Decidable (complementOk vals) := by
  unfold complementOk; infer_instance

/-- The number of set data bits (cells 0–3). -/
def dataOnes (vals : Fin 9 → Bool) : ℕ :=
  (if vals 0 then 1 else 0) + (if vals 1 then 1 else 0) +
    (if vals 2 then 1 else 0) + (if vals 3 then 1 else 0)

/-- Claim-side parity condition as the claim states it: the parity cell
equals 0 when the number of set data bits is even (and 1 when odd). -/
def claimParityOk (vals : Fin 9 → Bool) : Prop :=
  vals 8 = decide (dataOnes vals % 2 ≠ 0)

instance (vals : Fin 9 → Bool) : Decidable (claimParityOk vals) := by
  unfold claimParityOk; infer_instance

/-- The parity condition the code accepts: the parity cell equals 1 when
the number of set data bits is even (and 0 when odd). -/
def codeParityOk (vals : Fin 9 → Bool) : Prop :=
  vals 8 = decide (dataOnes vals % 2 = 0)

instance (vals : Fin 9 → Bool) : Decidable (codeParityOk vals) := by
  unfold codeParityOk; infer_instance

/-! ## Point-cloud transfer socket (PointCloudTransferSocket.cs) and
receiver decode (ObjectControllerIO.cs) -/

/-- `MinScale = 400`. -/
def MinScale : ℤ := 400

/-- The IEEE-754 single-precision value of the literal `0.3f` (the
server's `Range` constant), which is slightly above `3/10`. -/
def RangeSingle : ℚ := 5033165 / 16777216

/-- The single-precision value of `MinPrecision = Range / 255` as the C#
compiler folds it: the correctly rounded quotient `RangeSingle / 255`. -/
def MinPrecisionSingle : ℚ := 5052903 / 4294967296

/-- `MaxScale = (short)(1 / MinPrecision)`, folded in float arithmetic:
because `0.3f > 0.3`, the quotient `1 / MinPrecisionSingle =
4294967296/5052903 ≈ 849.99995` lies strictly between 849 and 850 — as
does its rounding to float (849.99994), double or extended precision —
so the short cast truncates to 849 in every case, which the exact
quotient below reproduces. -/
def MaxScale : ℤ := qtrunc (1 / MinPrecisionSingle)

/-- Truncation toward zero of a real number (`Math.Truncate` and C# numeric
casts). -/
noncomputable def rtrunc (x : ℝ) : ℤ := if 0 ≤ x then ⌊x⌋ else ⌈x⌉

/-- `PointCloudTransferSocket.DetermineScale(vertexCount)`:
`MaxScale` for a non-positive count, otherwise
`clamp(Truncate(6700 - 500*ln(vertexCount)), MinScale, MaxScale)`. -/
noncomputable def DetermineScale (vertexCount : ℤ) : ℤ :=
  if vertexCount ≤ 0 then MaxScale
  else min MaxScale (max (rtrunc ((6700 : ℝ) - 500 * Real.log (vertexCount : ℝ))) MinScale)

/-- The claim's scale formula, verbatim:
`clamp(round(6700 - 500*ln N), 400, 255/minPrecision)` with
`minPrecision = 0.3/255`, so the upper clamp bound is `216750`. -/
noncomputable def claimScale (n : ℤ) : ℤ :=
  min 216750 (max (round ((6700 : ℝ) - 500 * Real.log (n : ℝ))) 400)

/-- `PointCloudTransferSocket.EncodeFloatToByte(value, rangeCenter, scale)`:
`(byte)Math.Min(255, Math.Max((value + HalfRange - rangeCenter) * scale, 0))`
(the byte cast truncates). -/
def EncodeFloatToByte (value rangeCenter scale : ℚ) : ℤ :=
  qtrunc (min 255 (max ((value + HalfRange - rangeCenter) * scale) 0))

/-- `ObjectControllerIO.DecodeByteToFloat(encoded, rangeCenter, scale)`:
`encoded / scale - HalfRange + rangeCenter`. -/
def DecodeByteToFloat (encoded : ℤ) (rangeCenter scale : ℚ) : ℚ :=
  (encoded : ℚ) / scale - HalfRange + rangeCenter

/-! ## Hardware-sync role assignment and master start (Utils.cs) -/

/-- The C# `SyncState` enumeration. -/
inductive SyncState where
  | Subordinate
  | Master
  | Standalone
  | Unknown
deriving DecidableEq

/-- The coordinator's view of one `CameraClient`. -/
structure CamClient where
  serial : String
  currentSyncState : SyncState
  isStarted : Bool
deriving DecidableEq

/-- The coordinator state involved in the sync protocol: the client list,
the `waitForSubordinateStart` flag, `allDevicesInitialized`, and a count of
`StartMaster` dispatches to the master client (each `client.StartMaster()`
call increments it). -/
structure CoordState where
  clients : List CamClient
  waitForSubordinateStart : Bool
  allDevicesInitialized : Bool
  masterStartCalls : ℕ
deriving DecidableEq

/-- `CameraServer.EnableSync`'s role assignment: sort the clients with a
non-empty serial ascending by serial (ordinal), the first becomes Master
with offset 0, the `i`-th (from 1) Subordinate with offset `i`, and the
clients with an empty serial Standalone with offset 0. Returned as the
list of `(client, role, offset)` dispatches. -/
def enableSyncAssignments (cs : List CamClient) :
    List (CamClient × SyncState × ℕ) :=
  let sorted := (cs.filter fun c => c.serial ≠ "").mergeSort
    fun a b => a.serial ≤ b.serial
  match sorted with
  | [] => []
  | m :: subs =>
    (m, SyncState.Master, 0) ::
      (((List.range subs.length).zip subs).map fun ic =>
        (ic.2, SyncState.Subordinate, ic.1 + 1)) ++
      ((cs.filter fun c => c.serial = "").map fun c => (c, SyncState.Standalone, 0))

/-- The coordinator state right after `EnableSync` dispatched the role
commands: each `CameraClient.EnableSync` wrapper resets `IsStarted = false`
and `CurrentSyncState = Unknown`; the coordinator set
`waitForSubordinateStart = true` and `allDevicesInitialized = false`. -/
def enableSyncState (cs : List CamClient) : CoordState :=
  { clients := cs.map fun c =>
      { c with currentSyncState := SyncState.Unknown, isStarted := false }
    waitForSubordinateStart := true
    allDevicesInitialized := false
    masterStartCalls := 0 }

/-- Replace the `i`-th client by `f` of it. -/
def updateClient : List CamClient → ℕ → (CamClient → CamClient) → List CamClient
  | [], _, _ => []
  | c :: cs, 0, f => f c :: cs
  | c :: cs, n + 1, f => c :: updateClient cs n f

/-- `CameraServer.StartMaster` (the private coordinator method, run on each
subordinate ACK): return early unless `waitForSubordinateStart`; compute
whether every client currently in the Subordinate state has started; clear
`waitForSubordinateStart` unconditionally; if all such subordinates have
started, dispatch `StartMaster()` to the first client in the Master
state. -/
def startMasterHandler (s : CoordState) : CoordState :=
  if !s.waitForSubordinateStart then s
  else
    let allSubsStarted := s.clients.all fun c =>
      !(!c.isStarted ∧ c.currentSyncState = SyncState.Subordinate)
    let s1 := { s with waitForSubordinateStart := false }
    if allSubsStarted then
      if (s1.clients.find? fun c => c.currentSyncState = SyncState.Master).isSome then
        { s1 with masterStartCalls := s1.masterStartCalls + 1 }
      else s1
    else s1

/-- `CameraServer.ConfirmSyncDisabled`: when not waiting for a subordinate
start and every client is Standalone, mark all devices initialised. -/
def confirmSyncDisabled (s : CoordState) : CoordState :=
  if s.waitForSubordinateStart then s
  else if s.clients.all fun c => c.currentSyncState = SyncState.Standalone then
    { s with allDevicesInitialized := true }
  else s

/-- `CameraServer.OnConfirmSyncState(clientIndex, state)`: record the
confirmed state on the client, then, per role: a Subordinate ACK marks the
client started and runs the master-start check; a Master ACK marks it not
started; a Standalone ACK marks it started and runs the sync-disabled
check. -/
def onConfirmSyncState (s : CoordState) (idx : ℕ) (state : SyncState) : CoordState :=
  let cl0 := updateClient s.clients idx fun c => { c with currentSyncState := state }
  let s0 := { s with clients := cl0 }
  match state with
  | SyncState.Subordinate =>
    let cl1 := updateClient s0.clients idx fun c => { c with isStarted := true }
    startMasterHandler { s0 with clients := cl1 }
  | SyncState.Master =>
    let cl1 := updateClient s0.clients idx fun c => { c with isStarted := false }
    { s0 with clients := cl1 }
  | SyncState.Standalone =>
    let cl1 := updateClient s0.clients idx fun c => { c with isStarted := true }
    confirmSyncDisabled { s0 with clients := cl1 }
  | SyncState.Unknown => s0

/-- Fold a list of `(clientIndex, confirmedState)` ACK events over the
coordinator state. -/
def runAcks (s : CoordState) : List (ℕ × SyncState) → CoordState
  | [] => s
  | e :: es => runAcks (onConfirmSyncState s e.1 e.2) es

/-! ## Concrete instances used by the counterexamples and witnesses -/

/-- A small voxel grid: cell size 1, centred at the origin, half-range 1
(so bounds `[-1, 1)` per axis and 2×2×2 cells). -/
def c2Grid : VoxelGridFilter := VoxelGridFilter.init 1 0 0 0 1

/-- An identity calibration: calibrated, `R = I`, `T = 0`. -/
def identityCalib : CalibrationState :=
  { worldT := ⟨0, 0, 0⟩
    worldR := Mat3.id
    isCalibrated := true
    usedMarkerId := 1
    markerSamplePositions := []
    numSamples := 0 }

/-- A 12-point frame: two x-offsets 0 and 0.0006 m at each of six z-heights
`0.00118·b` m (`b = 0..5`), all at `y = 0`. All twelve fall in one density
voxel (side 0.006 m) and in pairwise-distinct cells of the de-dup grid, yet
point pairs at equal height share the `⌊coord/minPrecision⌋` voxel
triple. -/
def c1Frame : List Point3f :=
  (List.range 6).flatMap fun b =>
    [{ X := 0, Y := 0, Z := 118 * b / 100000 },
     { X := 6 / 10000, Y := 0, Z := 118 * b / 100000 }]

/-- Colours for the 12-point frame. -/
def c1Colors : List RGB := List.replicate 12 ⟨10, 20, 30⟩

/-- The published output of `ProcessFrame` on the 12-point frame under the
identity calibration, default bounds and the client's de-dup grid. -/
def c1Output : List Point3s :=
  (ProcessFrame identityCalib defaultBounds clientVoxelGrid c1Frame c1Colors).1

/-- A binarised marker cell grid: data bits `1100`, complement cells
`0011`, parity cell `0` (an even number of set data bits with parity bit
0, exactly the claim's accepted parity pattern). -/
def c7Vals : Fin 9 → Bool :=
  ![true, true, false, false, false, false, true, true, false]

/-- A detected marker with id 5 and a single corner at pixel (0,0). -/
def sampleMarker : MarkerInfo :=
  { Id := 5, Corners := [⟨0, 0⟩], Points := [{ X := 0, Y := -1, Z := 0 }] }

/-- A configured pose for marker id 5. -/
def samplePose : MarkerPose := { MarkerId := 5, R := Mat3.id, T := ⟨0, 0, 0⟩ }

/-- A depth frame whose every sample has `Z = 0` (invalid depth). -/
def zeroDepth : ℤ → Point3f := fun _ => { X := 0, Y := 0, Z := 0 }

/-- A depth frame whose every sample is the camera-space point (0,0,1). -/
def unitDepth : ℤ → Point3f := fun _ => { X := 0, Y := 0, Z := 1 }

/-- Camera clients with serials A001, A000, A002 (the spec's sync
scenario), initially standalone. -/
def camA001 : CamClient := ⟨"A001", SyncState.Standalone, true⟩

/-- Second camera of the sync scenario. -/
def camA000 : CamClient := ⟨"A000", SyncState.Standalone, true⟩

/-- Third camera of the sync scenario. -/
def camA002 : CamClient := ⟨"A002", SyncState.Standalone, true⟩

/-- The coordinator state after `EnableSync` on the three cameras
(list order A001, A000, A002, so the master A000 is at index 1). -/
def c9Start : CoordState := enableSyncState [camA001, camA000, camA002]

/-- A calibration state holding 19 samples, one short of the finalisation
threshold, so that the next accepted submission finalises. -/
def nineteenSamples : CalibrationState :=
  { CalibrationState.init with
      markerSamplePositions := List.replicate 19 [{ X := 0, Y := 0, Z := 1 }]
      numSamples := 19 }

/-- The state produced by the finalising `Calibrate` submission used as
the concrete witness input. -/
def finalisedState : CalibrationState :=
  (Calibrate (fun _ _ => Mat3.id) nineteenSamples [samplePose] (some sampleMarker)
    unitDepth 4).2

/-! # Theorems -/

theorem qtrunc_of_nonneg {q : ℚ} (h : 0 ≤ q) : qtrunc q = ⌊q⌋ := by
  simp [qtrunc, h]

/-- The claim's upper clamp bound `255/minPrecision` evaluates to 216750. -/
theorem claimMaxScale_eq : (255 : ℚ) / MinPrecision = 216750 := by
  norm_num [MinPrecision, Range]

/-- C1 (counterexample). On a calibrated frame of twelve in-bounds points
(all in one density voxel, so none is density-filtered), `ProcessFrame`
publishes all twelve, yet pairs of published points share the same
`(⌊x/minPrecision⌋, ⌊y/minPrecision⌋, ⌊z/minPrecision⌋)` voxel triple:
the de-dup grid is anchored at `centre - halfRange`, which on the x and y
axes is offset from the origin by 127.5 cells, so one claim-cell can
straddle two grid cells. The claim "no two points of the published output
cloud fall into the same voxel cell of side minPrecision" is false on this
frame. -/
theorem C1_counterexample :
    c1Output.length = 12 ∧ ¬ noTwoShareClaimVoxel c1Output := by
  with_unfolding_all decide

/-- C2 (counterexample). On the grid with `voxelSize = 1`, centre the
origin and `halfRange = 1` (bounds `[-1, 1)`), the point `(-1.5, 0, 0)`
lies outside the grid bounds — the cell containing it per the index
formula `floor((k - mink)/voxelSize)` has index `-1` on the x axis — yet
`Insert` returns `true`, because the `static_cast<int>` truncation maps
`-0.5` to `0`. The claim "for every point outside the grid bounds it
returns false" is false at this input. -/
theorem C2_counterexample :
    ¬ specCellInGrid c2Grid (-3/2) 0 0 ∧ (c2Grid.Insert (-3/2) 0 0).1 = true := by
  with_unfolding_all decide

/-- C7 (counterexample). The cell grid with data bits `1100`, complement
cells `0011` and parity cell 0 satisfies both of the claim's conditions —
cells 4–7 are the bitwise complement of cells 0–3, and the parity cell is
0 for an even number of set data bits — yet `GetCode` rejects it with
`-1`: the code's parity test accepts an even data-bit count only when the
parity cell is 1. The claimed "accepts iff" is false at this input. -/
theorem C7_counterexample :
    complementOk c7Vals ∧ claimParityOk c7Vals ∧ GetCode c7Vals = -1 := by
  decide

set_option maxRecDepth 16000 in
/-- C7 (amended). `GetCode` returns a non-negative code exactly when cells
4–7 are the bitwise complement of data cells 0–3 and the parity cell
equals 1 for an even number of set data bits (0 for an odd number) — the
inverse of the claimed parity convention; every other cell grid is
rejected with `-1`. -/
theorem C7_getcode_characterisation :
    ∀ vals : Fin 9 → Bool,
      (0 ≤ GetCode vals ↔ complementOk vals ∧ codeParityOk vals)
      ∧ (¬ (complementOk vals ∧ codeParityOk vals) → GetCode vals = -1) := by
  decide

/-- C8 (counterexample). A `Calibrate` call that detects a marker whose id
5 is configured but whose corner depth is invalid (`Z = 0` everywhere)
returns `false` without finalising — yet it changes `usedMarkerId` from
`-1` to 5, because the assignment happens before the depth check. The
claim that a non-finalising call leaves `usedMarkerId` unchanged is false
at this input. -/
theorem C8_counterexample :
    (Calibrate (fun _ _ => Mat3.id) CalibrationState.init [samplePose]
        (some sampleMarker) zeroDepth 4).1 = false
    ∧ (Calibrate (fun _ _ => Mat3.id) CalibrationState.init [samplePose]
        (some sampleMarker) zeroDepth 4).2.usedMarkerId = 5
    ∧ CalibrationState.init.usedMarkerId = -1 := by
  with_unfolding_all decide

/-- C9 (code evaluated at the failing input). With cameras `A001, A000,
A002`: roles are assigned as the claim states (`A000` Master, `A001`
Subordinate offset 1, `A002` Subordinate offset 2) — but the master-start
dispatch diverges from the claim. If the Master's ACK and then `A001`'s
Subordinate ACK are processed, `StartMaster` is dispatched immediately
(count 1) because the not-yet-ACKed `A002` still has state `Unknown` and
is not counted as an unstarted Subordinate — i.e. the master is started
*before* every Subordinate has ACKed. If instead both Subordinate ACKs
are processed before the Master's ACK, the dispatch count stays 0 forever
(the first ACK cleared `waitForSubordinateStart` and found no Master yet),
violating "exactly once". -/
theorem C9_sync_divergence :
    enableSyncAssignments [camA001, camA000, camA002] =
      [(camA000, SyncState.Master, 0), (camA001, SyncState.Subordinate, 1),
        (camA002, SyncState.Subordinate, 2)]
    ∧ (runAcks c9Start
        [(1, SyncState.Master), (0, SyncState.Subordinate)]).masterStartCalls = 1
    ∧ (runAcks c9Start
        [(1, SyncState.Master), (0, SyncState.Subordinate),
          (2, SyncState.Subordinate)]).masterStartCalls = 1
    ∧ (runAcks c9Start
        [(0, SyncState.Subordinate), (2, SyncState.Subordinate),
          (1, SyncState.Master)]).masterStartCalls = 0 := by
  with_unfolding_all decide

/-- Helper: with an uncalibrated state the first `ProcessFrame` loop
passes every point through unchanged. -/
theorem calibClipDedup_not_calibrated (calib : CalibrationState) (bounds : Bounds)
    (h : calib.isCalibrated = false) :
    ∀ (ps : List Point3f) (g : VoxelGridFilter), calibClipDedup calib bounds ps g = ps := by
  intro ps
  induction ps with
  | nil => intro g; rfl
  | cons p ps ih => intro g; simp [calibClipDedup, processPoint, h, ih]

/-- C10. If the camera is not calibrated, `ProcessFrame` applies no world
transform, bounds clipping or voxel de-dup: the calibrate/clip/de-dup loop
returns every captured point unchanged, in camera space, and the published
output equals that of the reference pipeline that starts at the
density-filter stage. -/
theorem C10_uncalibrated_passthrough (calib : CalibrationState) (bounds : Bounds)
    (g : VoxelGridFilter) (vertices : List Point3f) (colors : List RGB)
    (h : calib.isCalibrated = false) :
    calibClipDedup calib bounds vertices g.Reset = vertices
    ∧ ProcessFrame calib bounds g vertices colors =
        uncalibratedReference vertices colors := by
  have h1 := calibClipDedup_not_calibrated calib bounds h vertices g.Reset
  refine ⟨h1, ?_⟩
  simp [ProcessFrame, uncalibratedReference, stage1GoodCount, h, h1]

/-- Witness for `C10_uncalibrated_passthrough` at the freshly constructed
(uncalibrated) state and a one-point frame. -/
theorem C10_uncalibrated_passthrough_witness :
    calibClipDedup CalibrationState.init defaultBounds
        [{ X := 1, Y := 2, Z := 3 }] c2Grid.Reset = [{ X := 1, Y := 2, Z := 3 }]
    ∧ ProcessFrame CalibrationState.init defaultBounds c2Grid
        [{ X := 1, Y := 2, Z := 3 }] [⟨1, 2, 3⟩] =
        uncalibratedReference [{ X := 1, Y := 2, Z := 3 }] [⟨1, 2, 3⟩] :=
  C10_uncalibrated_passthrough CalibrationState.init defaultBounds c2Grid
    [{ X := 1, Y := 2, Z := 3 }] [⟨1, 2, 3⟩] rfl

/-- Helper: a successful `Insert` marks the cell, so re-inserting the same
point into the resulting state fails. -/
theorem insert_true_reinsert_false (g g2 : VoxelGridFilter) (x y z : ℚ)
    (h : g.Insert x y z = (true, g2)) : (g2.Insert x y z).1 = false := by
  simp only [VoxelGridFilter.Insert] at h
  split_ifs at h with hb hm
  · simp at h
  · simp at h
  · rw [Prod.mk.injEq] at h
    rw [← h.2]
    simp only [VoxelGridFilter.Insert]
    split_ifs with hmem
    · rfl
    · exact absurd (Finset.mem_insert_self _ _) hmem

/-- C2 (amended). `Insert(x,y,z)` returns true iff the cell computed by
truncation toward zero of `(k - mink)/voxelSize` per axis lies within
`[0, gridSize)` and was previously empty (because of the truncation,
points less than one cell below a minimum bound alias into boundary cell
0 rather than being rejected); it is idempotent — after a call with point
`p` returns true, a repeated call with the same `p` returns false — and
`Reset` clears all occupancy, giving the same state as resetting the
untouched grid. -/
theorem C2_insert_characterisation (g : VoxelGridFilter) (x y z : ℚ) :
    ((g.Insert x y z).1 = true ↔ truncCellInGrid g x y z ∧ ¬ cellOccupied g x y z)
    ∧ ((g.Insert x y z).1 = true → (((g.Insert x y z).2).Insert x y z).1 = false)
    ∧ ((g.Insert x y z).2).Reset = g.Reset := by
  refine ⟨?_, ?_, ?_⟩
  · simp only [VoxelGridFilter.Insert, truncCellInGrid, cellOccupied, truncCell]
    split_ifs with hb hm
    · constructor
      · intro hc; cases hc
      · rintro ⟨⟨h1, h2, h3, h4, h5, h6⟩, -⟩
        rcases hb with hb | hb | hb | hb | hb | hb <;> omega
    · constructor
      · intro hc; cases hc
      · rintro ⟨-, hocc⟩; exact hocc hm
    · constructor
      · intro _
        push_neg at hb
        exact ⟨⟨by omega, by omega, by omega, by omega, by omega, by omega⟩, hm⟩
      · intro _; rfl
  · intro h1
    refine insert_true_reinsert_false g ((g.Insert x y z).2) x y z ?_
    rw [← h1]
  · simp only [VoxelGridFilter.Insert]
    split_ifs with hb hm
    · rfl
    · rfl
    · rfl

/-- Witness for `C2_insert_characterisation`: on the small grid, inserting
the origin succeeds and a repeated insertion fails. -/
theorem C2_insert_characterisation_witness :
    (c2Grid.Insert 0 0 0).1 = true
    ∧ (((c2Grid.Insert 0 0 0).2).Insert 0 0 0).1 = false := by
  have h := C2_insert_characterisation c2Grid 0 0 0
  have h1 : (c2Grid.Insert 0 0 0).1 = true :=
    h.1.mpr ⟨by with_unfolding_all decide, by with_unfolding_all decide⟩
  exact ⟨h1, h.2.1 h1⟩

/-- C8 (amended). Every `Calibrate` call that does not finalise calibration
returns `false` and leaves `worldR`, `worldT` and `isCalibrated` unchanged;
the sample buffer only grows (the new state's buffer extends the old one);
and `usedMarkerId` is either unchanged or — as soon as a detected marker's
id matches a configured pose, even when the depth or sample-count check
then fails — set to that detected marker's id. -/
theorem C8_failed_calibrate_preserves (svdR : List Point3f → List Point3f → Mat3)
    (st : CalibrationState) (markerPoses : List MarkerPose)
    (detected : Option MarkerInfo) (depthFrame : ℤ → Point3f) (frameWidth : ℤ)
    (st2 : CalibrationState)
    (h : Calibrate svdR st markerPoses detected depthFrame frameWidth = (false, st2)) :
    st2.worldR = st.worldR ∧ st2.worldT = st.worldT
    ∧ st2.isCalibrated = st.isCalibrated
    ∧ (∃ rest, st2.markerSamplePositions = st.markerSamplePositions ++ rest)
    ∧ (st2.usedMarkerId = st.usedMarkerId
        ∨ ∃ marker, detected = some marker ∧ st2.usedMarkerId = marker.Id) := by
  rcases detected with _ | marker
  · simp only [Calibrate, Prod.mk.injEq] at h
    rw [← h.2]
    exact ⟨rfl, rfl, rfl, ⟨[], by simp⟩, Or.inl rfl⟩
  · simp only [Calibrate] at h
    cases hfind : markerPoses.find? (fun p => p.MarkerId == marker.Id) with
    | none =>
      rw [hfind] at h
      simp only [Prod.mk.injEq] at h
      rw [← h.2]
      exact ⟨rfl, rfl, rfl, ⟨[], by simp⟩, Or.inl rfl⟩
    | some pose =>
      rw [hfind] at h
      have hid : pose.MarkerId = marker.Id := by
        have hp := List.find?_some hfind
        simpa using hp
      cases hg : Get3DMarkerCorners marker depthFrame frameWidth with
      | none =>
        rw [hg] at h
        simp only [Prod.mk.injEq] at h
        rw [← h.2]
        exact ⟨rfl, rfl, rfl, ⟨[], by simp⟩, Or.inr ⟨marker, rfl, hid⟩⟩
      | some m3d =>
        rw [hg] at h
        split_ifs at h with hn
        · simp only [Prod.mk.injEq] at h
          rw [← h.2]
          exact ⟨rfl, rfl, rfl, ⟨[m3d], rfl⟩, Or.inr ⟨marker, rfl, hid⟩⟩
        · simp at h

/-- Witness for `C8_failed_calibrate_preserves`: a submission with no
marker detected returns false and preserves the default state. -/
theorem C8_failed_calibrate_preserves_witness :
    (Calibrate (fun _ _ => Mat3.id) CalibrationState.init [samplePose] none
        zeroDepth 4).2.worldR = CalibrationState.init.worldR
    ∧ (Calibrate (fun _ _ => Mat3.id) CalibrationState.init [samplePose] none
        zeroDepth 4).2.worldT = CalibrationState.init.worldT
    ∧ (Calibrate (fun _ _ => Mat3.id) CalibrationState.init [samplePose] none
        zeroDepth 4).2.isCalibrated = CalibrationState.init.isCalibrated
    ∧ (∃ rest, (Calibrate (fun _ _ => Mat3.id) CalibrationState.init [samplePose]
        none zeroDepth 4).2.markerSamplePositions =
          CalibrationState.init.markerSamplePositions ++ rest)
    ∧ ((Calibrate (fun _ _ => Mat3.id) CalibrationState.init [samplePose] none
        zeroDepth 4).2.usedMarkerId = CalibrationState.init.usedMarkerId
        ∨ ∃ marker, (none : Option MarkerInfo) = some marker
            ∧ (Calibrate (fun _ _ => Mat3.id) CalibrationState.init [samplePose]
                none zeroDepth 4).2.usedMarkerId = marker.Id) :=
  C8_failed_calibrate_preserves (fun _ _ => Mat3.id) CalibrationState.init
    [samplePose] none zeroDepth 4
    (Calibrate (fun _ _ => Mat3.id) CalibrationState.init [samplePose] none
      zeroDepth 4).2 rfl

/-- Helper: `InverseRotatePoint(v, R)` computes `transpose(R) * v`. -/
theorem inverseRotatePoint_eq (v : Vec3) (R : Mat3) :
    InverseRotatePoint v R = Mat3.mulVec (Mat3.transpose R) v := by
  simp only [InverseRotatePoint, Mat3.mulVec, Mat3.transpose, Vec3.mk.injEq]
  exact ⟨by ring, by ring, by ring⟩

/-- C5. When a `Calibrate` submission finalises calibration against the
configured pose of the detected marker, the stored transform is the
marker-pose composition of the raw Procrustes result `(Rp, Tp)` on the
averaged samples: `R_world = pose.R * Rp` and
`T_world = Tp + transpose(R_world) * pose.T`; and the per-point transform
the capture pipeline applies thereafter is translation before rotation,
`v_world = R_world * (v_cam + T_world)`. -/
theorem C5_calibrate_composition (svdR : List Point3f → List Point3f → Mat3)
    (st : CalibrationState) (markerPoses : List MarkerPose) (marker : MarkerInfo)
    (pose : MarkerPose) (depthFrame : ℤ → Point3f) (frameWidth : ℤ)
    (st2 : CalibrationState)
    (hfind : markerPoses.find? (fun p => p.MarkerId == marker.Id) = some pose)
    (h : Calibrate svdR st markerPoses (some marker) depthFrame frameWidth
          = (true, st2)) :
    ∃ avg : List Point3f,
      st2.worldR = Mat3.mul pose.R (procrustesResult svdR marker.Points avg).1
      ∧ st2.worldT = Vec3.add (procrustesResult svdR marker.Points avg).2
          (Mat3.mulVec (Mat3.transpose st2.worldR) pose.T)
      ∧ ∀ p : Point3f,
          applyCalib st2 p =
            { X := (Mat3.mulVec st2.worldR (Vec3.add p.vec st2.worldT)).c0
              Y := (Mat3.mulVec st2.worldR (Vec3.add p.vec st2.worldT)).c1
              Z := (Mat3.mulVec st2.worldR (Vec3.add p.vec st2.worldT)).c2 } := by
  simp only [Calibrate, hfind] at h
  cases hg : Get3DMarkerCorners marker depthFrame frameWidth with
  | none => rw [hg] at h; simp at h
  | some m3d =>
    rw [hg] at h
    split_ifs at h with hn
    · simp at h
    · simp only [Prod.mk.injEq] at h
      rw [← h.2]
      refine ⟨averageSamples (st.markerSamplePositions ++ [m3d])
        marker.Corners.length, rfl, ?_, ?_⟩
      · rw [inverseRotatePoint_eq]
      · intro p
        simp only [applyCalib, RotatePoint, Mat3.mulVec, Vec3.add, Point3f.vec,
          Point3f.mk.injEq]
        refine ⟨by ring, by ring, by ring, trivial⟩

set_option maxRecDepth 100000 in
/-- Witness for `C5_calibrate_composition`: the 20th submission of a
stationary marker against the configured pose of id 5 finalises, and the
stored transform satisfies the composition and application laws. -/
theorem C5_calibrate_composition_witness :
    ∃ avg : List Point3f,
      finalisedState.worldR
        = Mat3.mul samplePose.R
            (procrustesResult (fun _ _ => Mat3.id) sampleMarker.Points avg).1
      ∧ finalisedState.worldT
        = Vec3.add (procrustesResult (fun _ _ => Mat3.id) sampleMarker.Points avg).2
            (Mat3.mulVec (Mat3.transpose finalisedState.worldR) samplePose.T)
      ∧ ∀ p : Point3f,
          applyCalib finalisedState p =
            { X := (Mat3.mulVec finalisedState.worldR
                      (Vec3.add p.vec finalisedState.worldT)).c0
              Y := (Mat3.mulVec finalisedState.worldR
                      (Vec3.add p.vec finalisedState.worldT)).c1
              Z := (Mat3.mulVec finalisedState.worldR
                      (Vec3.add p.vec finalisedState.worldT)).c2 } :=
  C5_calibrate_composition (fun _ _ => Mat3.id) nineteenSamples [samplePose]
    sampleMarker samplePose unitDepth 4 finalisedState
    (by with_unfolding_all decide) (by with_unfolding_all decide)

/-- Helper: `MaxScale` evaluates to 849 (the float quotient is just below
850). -/
theorem MaxScale_eq : MaxScale = 849 := by
  have h : (1 : ℚ) / MinPrecisionSingle = 4294967296 / 5052903 := by
    norm_num [MinPrecisionSingle]
  rw [MaxScale, h, qtrunc_of_nonneg (by norm_num)]
  rw [Int.floor_eq_iff]
  norm_num

/-- Helper: per-axis wire round-trip bound: for a positive scale at most
850 and a value within `HalfRange` of the axis centre, decoding the
encoded byte recovers the value to within `1/S`. -/
theorem encode_decode_axis (c v : ℚ) (S : ℤ) (hS1 : 400 ≤ S) (hS2 : S ≤ 850)
    (hv : |v - c| ≤ HalfRange) :
    |DecodeByteToFloat (EncodeFloatToByte v c (S : ℚ)) c (S : ℚ) - v|
      ≤ 1 / (S : ℚ) := by
  have hSpos : (0 : ℚ) < (S : ℚ) := by exact_mod_cast lt_of_lt_of_le (by norm_num) hS1
  have hSq : (S : ℚ) ≤ 850 := by exact_mod_cast hS2
  have habs := abs_le.mp hv
  set t : ℚ := (v + HalfRange - c) * S with ht
  have ht0 : 0 ≤ t := by
    apply mul_nonneg _ hSpos.le
    have := habs.1
    simp only [HalfRange, Range] at this ⊢
    linarith
  have ht255 : t ≤ 255 := by
    have h1 : v + HalfRange - c ≤ 2 * HalfRange := by
      have := habs.2; linarith
    calc t ≤ 2 * HalfRange * S := by
            apply mul_le_mul_of_nonneg_right h1 hSpos.le
      _ ≤ 2 * HalfRange * 850 := by
            apply mul_le_mul_of_nonneg_left hSq
            norm_num [HalfRange, Range]
      _ = 255 := by norm_num [HalfRange, Range]
  have henc : EncodeFloatToByte v c (S : ℚ) = ⌊t⌋ := by
    simp only [EncodeFloatToByte, ← ht]
    rw [max_eq_left ht0, min_eq_right ht255]
    exact qtrunc_of_nonneg ht0
  rw [henc]
  simp only [DecodeByteToFloat]
  have hdiff : ((⌊t⌋ : ℚ)) / (S : ℚ) - HalfRange + c - v = ((⌊t⌋ : ℚ) - t) / S := by
    rw [ht]; field_simp; ring
  rw [hdiff, abs_div, abs_of_pos hSpos]
  rw [div_le_div_iff_of_pos_right hSpos]
  rw [abs_sub_comm, abs_of_nonneg (sub_nonneg.mpr (Int.floor_le t))]
  have := Int.lt_floor_add_one t
  linarith

/-- Helper: for a positive point count the dynamic scale lies in
`[400, 849]`. -/
theorem determineScale_bounds (N : ℤ) (hN : 1 ≤ N) :
    400 ≤ DetermineScale N ∧ DetermineScale N ≤ 849 := by
  unfold DetermineScale
  rw [if_neg (by omega)]
  rw [MaxScale_eq]
  constructor
  · exact le_min (by norm_num) (le_trans (by norm_num [MinScale]) (le_max_right _ _))
  · exact min_le_left _ _

/-- C4. For every scale produced by the scale formula at a positive fused
point count and every point whose axes lie within `±HalfRange` of the
axis centres `(0, 0, HalfRange)`, decoding the encoded wire byte of each
axis recovers the point to within `1/S` per axis. -/
theorem C4_wire_roundtrip (N : ℤ) (hN : 1 ≤ N) (S : ℤ) (hS : S = DetermineScale N)
    (x y z : ℚ)
    (hx : |x - XRangeCenter| ≤ HalfRange) (hy : |y - YRangeCenter| ≤ HalfRange)
    (hz : |z - ZRangeCenter| ≤ HalfRange) :
    |DecodeByteToFloat (EncodeFloatToByte x XRangeCenter (S : ℚ)) XRangeCenter (S : ℚ) - x|
        ≤ 1 / (S : ℚ)
    ∧ |DecodeByteToFloat (EncodeFloatToByte y YRangeCenter (S : ℚ)) YRangeCenter (S : ℚ) - y|
        ≤ 1 / (S : ℚ)
    ∧ |DecodeByteToFloat (EncodeFloatToByte z ZRangeCenter (S : ℚ)) ZRangeCenter (S : ℚ) - z|
        ≤ 1 / (S : ℚ) := by
  obtain ⟨h1, h2⟩ := determineScale_bounds N hN
  have h2' : DetermineScale N ≤ 850 := le_trans h2 (by norm_num)
  rw [hS]
  exact ⟨encode_decode_axis _ _ _ h1 h2' hx,
    encode_decode_axis _ _ _ h1 h2' hy,
    encode_decode_axis _ _ _ h1 h2' hz⟩

/-- Witness for `C4_wire_roundtrip` at `N = 100` and the point
`(0, 0, 0.15)` (the centre of the capture box). -/
theorem C4_wire_roundtrip_witness :
    |DecodeByteToFloat (EncodeFloatToByte 0 XRangeCenter ((DetermineScale 100 : ℤ) : ℚ))
        XRangeCenter ((DetermineScale 100 : ℤ) : ℚ) - 0|
      ≤ 1 / ((DetermineScale 100 : ℤ) : ℚ)
    ∧ |DecodeByteToFloat (EncodeFloatToByte 0 YRangeCenter ((DetermineScale 100 : ℤ) : ℚ))
        YRangeCenter ((DetermineScale 100 : ℤ) : ℚ) - 0|
      ≤ 1 / ((DetermineScale 100 : ℤ) : ℚ)
    ∧ |DecodeByteToFloat (EncodeFloatToByte (3/20) ZRangeCenter ((DetermineScale 100 : ℤ) : ℚ))
        ZRangeCenter ((DetermineScale 100 : ℤ) : ℚ) - 3/20|
      ≤ 1 / ((DetermineScale 100 : ℤ) : ℚ) :=
  C4_wire_roundtrip 100 (by norm_num) (DetermineScale 100) rfl 0 0 (3/20)
    (by norm_num [XRangeCenter, HalfRange, Range])
    (by norm_num [YRangeCenter, HalfRange, Range])
    (by norm_num [ZRangeCenter, HalfRange, Range])

/-- Helper: `ln 100 ≤ 11` (since `100 ≤ 2^11 ≤ e^11`). -/
theorem log_hundred_le : Real.log 100 ≤ 11 := by
  have h2 : (2 : ℝ) ≤ Real.exp 1 :=
    le_of_lt (lt_trans (by norm_num) Real.exp_one_gt_d9)
  have hpow : ((2 : ℝ)) ^ (11 : ℕ) ≤ (Real.exp 1) ^ (11 : ℕ) :=
    pow_le_pow_left₀ (by norm_num) h2 11
  have hexp : Real.exp ((11 : ℕ) * (1 : ℝ)) = (Real.exp 1) ^ (11 : ℕ) :=
    Real.exp_nat_mul 1 11
  have h100 : (100 : ℝ) ≤ Real.exp 11 := by
    have h11 : Real.exp 11 = (Real.exp 1) ^ (11 : ℕ) := by
      rw [← hexp]; norm_num
    rw [h11]
    calc (100 : ℝ) ≤ 2 ^ (11 : ℕ) := by norm_num
      _ ≤ _ := hpow
  rw [Real.log_le_iff_le_exp (by norm_num)]
  exact h100

/-- Helper: the scale the server computes for 100 fused points is the
clamped maximum, 849. -/
theorem determineScale_at_100 : DetermineScale 100 = 849 := by
  have hlog0 : (0 : ℝ) ≤ Real.log 100 := Real.log_nonneg (by norm_num)
  have hv_lb : (1200 : ℝ) ≤ 6700 - 500 * Real.log 100 := by
    have := log_hundred_le; linarith
  have hv0 : (0 : ℝ) ≤ 6700 - 500 * Real.log 100 := by linarith
  unfold DetermineScale
  rw [if_neg (by norm_num)]
  have hcast : (((100 : ℤ) : ℝ)) = (100 : ℝ) := by norm_num
  rw [hcast]
  have htr : rtrunc ((6700 : ℝ) - 500 * Real.log 100)
      = ⌊(6700 : ℝ) - 500 * Real.log 100⌋ := by
    simp only [rtrunc, if_pos hv0]
  rw [htr]
  have hfl : (849 : ℤ) ≤ ⌊(6700 : ℝ) - 500 * Real.log 100⌋ := by
    rw [Int.le_floor]
    push_cast
    linarith
  rw [MaxScale_eq]
  rw [max_eq_left (le_trans (by norm_num [MinScale]) hfl)]
  exact min_eq_left hfl

/-- C3 (counterexample). At `N = 100` the code's scale is 849 — the upper
clamp bound `MaxScale = (short)(1/MinPrecision)` folds in float
arithmetic to 849, since `0.3f > 0.3` makes `1/MinPrecision ≈ 849.99995`
— whereas the claim's formula `clamp(round(6700 − 500·ln N), 400,
255/minPrecision)` has upper bound `255/minPrecision = 216750`, leaves
the value unclamped and yields about 4397 (between 1200 and 6700). The
claim's formula therefore disagrees with the code at its own example
input `N = 100`. -/
theorem C3_counterexample :
    DetermineScale 100 = 849 ∧ claimScale 100 ≠ DetermineScale 100 := by
  refine ⟨determineScale_at_100, ?_⟩
  rw [determineScale_at_100]
  have hlog0 : (0 : ℝ) ≤ Real.log 100 := Real.log_nonneg (by norm_num)
  have hv_lb : (1200 : ℝ) ≤ 6700 - 500 * Real.log 100 := by
    have := log_hundred_le; linarith
  have hv_ub : 6700 - 500 * Real.log 100 ≤ (6700 : ℝ) := by linarith
  unfold claimScale
  have hcast : (((100 : ℤ) : ℝ)) = (100 : ℝ) := by norm_num
  rw [hcast]
  have hr_lb : (1200 : ℤ) ≤ round ((6700 : ℝ) - 500 * Real.log 100) := by
    rw [round_eq, Int.le_floor]
    push_cast
    linarith
  have hr_ub : round ((6700 : ℝ) - 500 * Real.log 100) ≤ 216750 := by
    rw [round_eq]
    have : ⌊(6700 : ℝ) - 500 * Real.log 100 + 1 / 2⌋ < (216751 : ℤ) := by
      rw [Int.floor_lt]
      push_cast
      linarith
    omega
  rw [max_eq_left (by omega), min_eq_right hr_ub]
  omega

/-- C3 (amended). For every fused point count `N ≥ 1` the per-frame scale
is `clamp(truncate(6700 − 500·ln N), 400, 849)` — the upper clamp bound
is `(short)(1/minPrecision)`, which under the program's float constant
folding is 849 (not `255/minPrecision = 216750`, and not even the exact
`255/Range = 850`, since `0.3f` exceeds `0.3`), and the fractional part
is truncated, not rounded; in particular for `N = 100` the unclamped
value exceeds the bound and `S = 849`. -/
theorem C3_scale_amended :
    (∀ N : ℤ, 1 ≤ N →
        DetermineScale N
          = min 849 (max (rtrunc ((6700 : ℝ) - 500 * Real.log (N : ℝ))) 400))
    ∧ DetermineScale 100 = 849 := by
  refine ⟨?_, determineScale_at_100⟩
  intro N hN
  unfold DetermineScale
  rw [if_neg (by omega), MaxScale_eq]
  rfl

/-- Witness for `C3_scale_amended`, instantiated at `N = 2` (and carrying
the concrete `N = 100` evaluation). -/
theorem C3_scale_amended_witness :
    DetermineScale 2
      = min 849 (max (rtrunc ((6700 : ℝ) - 500 * Real.log ((2 : ℤ) : ℝ))) 400)
    ∧ DetermineScale 100 = 849 :=
  ⟨C3_scale_amended.1 2 (by norm_num), C3_scale_amended.2⟩

/-- Helper: for a calibrated state, the calibrate/clip/de-dup loop started
with occupancy `s` emits, among the valid points, only points whose cell
is not in `s`, and no two valid emitted points share a cell of the de-dup
grid. -/
theorem stage1_fresh_pairwise (calib : CalibrationState) (bounds : Bounds)
    (hc : calib.isCalibrated = true) (g0 : VoxelGridFilter) :
    ∀ (vs : List Point3f) (s : Finset ℕ),
      (∀ q ∈ calibClipDedup calib bounds vs { g0 with voxelGrid := s },
          q.Invalid = false → cellIdx g0 q.X q.Y q.Z ∉ s)
      ∧ (calibClipDedup calib bounds vs { g0 with voxelGrid := s }).Pairwise
          (fun p q => p.Invalid = false → q.Invalid = false →
            truncCell g0 p.X p.Y p.Z ≠ truncCell g0 q.X q.Y q.Z) := by
  intro vs
  induction vs with
  | nil =>
    intro s
    exact ⟨by simp [calibClipDedup], by simp [calibClipDedup]⟩
  | cons p rest ih =>
    intro s
    have hstep : calibClipDedup calib bounds (p :: rest) { g0 with voxelGrid := s }
        = (processPoint calib bounds { g0 with voxelGrid := s } p).1
          :: calibClipDedup calib bounds rest
              (processPoint calib bounds { g0 with voxelGrid := s } p).2 := rfl
    by_cases hbd : (applyCalib calib p).X < bounds.b0 ∨ (applyCalib calib p).X > bounds.b3
        ∨ (applyCalib calib p).Y < bounds.b1 ∨ (applyCalib calib p).Y > bounds.b4
        ∨ (applyCalib calib p).Z < bounds.b2 ∨ (applyCalib calib p).Z > bounds.b5
    · have hpp : processPoint calib bounds { g0 with voxelGrid := s } p
          = (invalidPoint, { g0 with voxelGrid := s }) := by
        simp only [processPoint, hc, if_true]
        rw [if_pos hbd]
        try rfl
      rw [hstep, hpp]
      refine ⟨?_, ?_⟩
      · intro q hq hval
        rcases List.mem_cons.mp hq with hq | hq
        · rw [hq] at hval; cases hval
        · exact (ih s).1 q hq hval
      · refine List.Pairwise.cons ?_ (ih s).2
        intro q _ hval1 _
        cases hval1
    · by_cases hrg : qtrunc (((applyCalib calib p).X - g0.minX) * g0.invVoxelSize) < 0
          ∨ qtrunc (((applyCalib calib p).Y - g0.minY) * g0.invVoxelSize) < 0
          ∨ qtrunc (((applyCalib calib p).Z - g0.minZ) * g0.invVoxelSize) < 0
          ∨ (g0.gridSizeX : ℤ) ≤ qtrunc (((applyCalib calib p).X - g0.minX) * g0.invVoxelSize)
          ∨ (g0.gridSizeY : ℤ) ≤ qtrunc (((applyCalib calib p).Y - g0.minY) * g0.invVoxelSize)
          ∨ (g0.gridSizeZ : ℤ) ≤ qtrunc (((applyCalib calib p).Z - g0.minZ) * g0.invVoxelSize)
      · have hpp : processPoint calib bounds { g0 with voxelGrid := s } p
            = (invalidPoint, { g0 with voxelGrid := s }) := by
          simp only [processPoint, hc, if_true, VoxelGridFilter.Insert]
          rw [if_neg hbd, if_pos hrg]
          try rfl
        rw [hstep, hpp]
        refine ⟨?_, ?_⟩
        · intro q hq hval
          rcases List.mem_cons.mp hq with hq | hq
          · rw [hq] at hval; cases hval
          · exact (ih s).1 q hq hval
        · refine List.Pairwise.cons ?_ (ih s).2
          intro q _ hval1 _
          cases hval1
      · by_cases hmem : cellIdx g0 (applyCalib calib p).X (applyCalib calib p).Y
            (applyCalib calib p).Z ∈ s
        · have hpp : processPoint calib bounds { g0 with voxelGrid := s } p
              = (invalidPoint, { g0 with voxelGrid := s }) := by
            simp only [processPoint, hc, if_true, VoxelGridFilter.Insert]
            rw [if_neg hbd, if_neg hrg]
            simp only [cellIdx, truncCell, VoxelGridFilter.VoxelIndex] at hmem
            simp only [VoxelGridFilter.VoxelIndex]
            rw [if_pos hmem]
            try rfl
          rw [hstep, hpp]
          refine ⟨?_, ?_⟩
          · intro q hq hval
            rcases List.mem_cons.mp hq with hq | hq
            · rw [hq] at hval; cases hval
            · exact (ih s).1 q hq hval
          · refine List.Pairwise.cons ?_ (ih s).2
            intro q _ hval1 _
            cases hval1
        · have hpp : processPoint calib bounds { g0 with voxelGrid := s } p
              = (applyCalib calib p,
                  { g0 with voxelGrid := insert (cellIdx g0 (applyCalib calib p).X
                      (applyCalib calib p).Y (applyCalib calib p).Z) s }) := by
            simp only [processPoint, hc, if_true, VoxelGridFilter.Insert]
            rw [if_neg hbd, if_neg hrg]
            simp only [cellIdx, truncCell, VoxelGridFilter.VoxelIndex] at hmem ⊢
            rw [if_neg hmem]
            try rfl
          rw [hstep, hpp]
          refine ⟨?_, ?_⟩
          · intro q hq hval
            rcases List.mem_cons.mp hq with hq | hq
            · rw [hq]; rw [hq] at hval; exact hmem
            · intro hcontra
              exact (ih _).1 q hq hval (Finset.mem_insert_of_mem hcontra)
          · refine List.Pairwise.cons ?_ (ih _).2
            intro q hq hval1 hval2 heq
            have hidx : cellIdx g0 (applyCalib calib p).X (applyCalib calib p).Y
                (applyCalib calib p).Z = cellIdx g0 q.X q.Y q.Z := by
              simp only [cellIdx]
              rw [heq]
            have hfresh := (ih _).1 q hq hval2
            rw [← hidx] at hfresh
            exact hfresh (Finset.mem_insert_self _ _)

/-- Helper: the density filter only replaces points by `invalidPoint`, so
any pairwise property guarded by validity survives it. -/
theorem densityStage_pairwise (pts : List Point3f) (R : Point3f → Point3f → Prop)
    (hp : pts.Pairwise fun a b => a.Invalid = false → b.Invalid = false → R a b) :
    (densityStage pts).Pairwise
      (fun a b => a.Invalid = false → b.Invalid = false → R a b) := by
  have hf : ∀ (keys : List ℕ) (x : Point3f),
      (if x.Invalid then x
        else if keys.count (densityKey x) < minPointsPerVoxel then invalidPoint
        else x) = x
      ∨ (if x.Invalid then x
          else if keys.count (densityKey x) < minPointsPerVoxel then invalidPoint
          else x).Invalid = true := by
    intro keys x
    split_ifs with h1 h2
    · exact Or.inl rfl
    · exact Or.inr rfl
    · exact Or.inl rfl
  unfold densityStage
  rw [List.pairwise_map]
  refine hp.imp ?_
  intro a b hab ha hb
  rcases hf _ a with hA | hA
  · rcases hf _ b with hB | hB
    · rw [hA, hB]
      rw [hA] at ha
      rw [hB] at hb
      exact hab ha hb
    · rw [hb] at hB
      cases hB
  · rw [ha] at hA
    cases hA

/-- Helper: projecting the first components of a zip is a sublist of the
first list. -/
theorem map_fst_zip_sublist {α β : Type} :
    ∀ (l : List α) (l2 : List β), ((l.zip l2).map Prod.fst).Sublist l
  | [], _ => by simp
  | _ :: _, [] => by simp
  | a :: l, b :: l2 => by
    simpa using (map_fst_zip_sublist l l2).cons₂ a

/-- Helper: every point the good-vertex copy loop actually wrote is
valid. -/
theorem keptFloats_valid (calib : CalibrationState) (bounds : Bounds)
    (g : VoxelGridFilter) (vs : List Point3f) (cols : List RGB) (p : Point3f)
    (h : p ∈ processFrameKeptFloats calib bounds g vs cols) :
    p.Invalid = false := by
  unfold processFrameKeptFloats at h
  obtain ⟨pc, hpc, hpc2⟩ := List.mem_map.mp h
  have hpred := List.of_mem_filter hpc
  rw [← hpc2]
  simpa using hpred

/-- C1 (amended). On a calibrated frame, the published float buffer is the
list of written survivors followed by a zero-padded tail — the entries of
the pre-sized `goodVertices` vector the copy loop never reached, left at
the default `Point3f(0,0,0)` — and no two of the *written* survivors come
from the same cell of the de-dup grid the pipeline actually uses: the grid
of cell size `minPrecision` anchored at `centre - halfRange` with
truncation-computed indices. (The padded zeros can repeat a cell; two
published points may also share a `⌊coord/minPrecision⌋` triple, because
on the x and y axes that anchor is offset from the origin by half a cell;
and an uncalibrated frame is not de-duplicated at all.) -/
theorem C1_dedup_output_cells_distinct (calib : CalibrationState) (bounds : Bounds)
    (g : VoxelGridFilter) (vs : List Point3f) (cols : List RGB)
    (hc : calib.isCalibrated = true) :
    (∃ k : ℕ, processFrameFloats calib bounds g vs cols =
        processFrameKeptFloats calib bounds g vs cols
          ++ List.replicate k { X := 0, Y := 0, Z := 0 })
    ∧ (processFrameKeptFloats calib bounds g vs cols).Pairwise
        (fun p q => truncCell g p.X p.Y p.Z ≠ truncCell g q.X q.Y q.Z) := by
  constructor
  · refine ⟨stage1GoodCount calib vs (calibClipDedup calib bounds vs g.Reset)
        - (((densityStage (calibClipDedup calib bounds vs g.Reset)).zip cols).filter
            fun pc => !pc.1.Invalid).length, ?_⟩
    simp [processFrameFloats, processFrameKeptFloats, collectGood,
      List.map_append, List.map_replicate]
  · have hreset : g.Reset = { g with voxelGrid := (∅ : Finset ℕ) } := rfl
    have hmain := (stage1_fresh_pairwise calib bounds hc g vs ∅).2
    rw [← hreset] at hmain
    have hd := densityStage_pairwise _ _ hmain
    have hsub : (processFrameKeptFloats calib bounds g vs cols).Sublist
        (densityStage (calibClipDedup calib bounds vs g.Reset)) := by
      unfold processFrameKeptFloats
      refine List.Sublist.trans ?_ (map_fst_zip_sublist _ cols)
      exact List.Sublist.map _ (List.filter_sublist _)
    have hout := hd.sublist hsub
    refine hout.imp_of_mem ?_
    intro a b ha hb hab
    exact hab (keptFloats_valid calib bounds g vs cols a ha)
      (keptFloats_valid calib bounds g vs cols b hb)

/-- Witness for `C1_dedup_output_cells_distinct` on the identity-calibrated
twelve-point frame. -/
theorem C1_dedup_output_cells_distinct_witness :
    (∃ k : ℕ, processFrameFloats identityCalib defaultBounds clientVoxelGrid
        c1Frame c1Colors =
          processFrameKeptFloats identityCalib defaultBounds clientVoxelGrid
            c1Frame c1Colors ++ List.replicate k { X := 0, Y := 0, Z := 0 })
    ∧ (processFrameKeptFloats identityCalib defaultBounds clientVoxelGrid
        c1Frame c1Colors).Pairwise
      (fun p q => truncCell clientVoxelGrid p.X p.Y p.Z
        ≠ truncCell clientVoxelGrid q.X q.Y q.Z) :=
  C1_dedup_output_cells_distinct identityCalib defaultBounds clientVoxelGrid
    c1Frame c1Colors rfl

end Holoport
